import Mathlib

/-!
Shallow embedding of the review-analysis application: `MainGui.py`
(class `ReviewAnalyzerApp`: `run_analysis`, `analyze_single_review`,
`create_summary_prompt`, `get_final_summary`, `populate_gui`,
`draw_word_cloud`) and `DatabaseTest.py` (`load_feedback`).

External effects are modelled as explicit inputs:
* the database query outcome is an `Except` value (`sqlite3.connect` on a
  fixed filename always succeeds, creating an empty database when the file
  is absent, so a missing store surfaces as an `OperationalError` from the
  `SELECT`);
* the per-review structured-extraction service is a function from the
  review index to an `Except` outcome, whose error case covers both a
  failed API call and an unparsable payload (`json.loads` failure);
* the final free-text service is a function from the prompt string to an
  `Except` outcome.

A parsed per-review payload is a Python dict; the code reads the keys
`sentiment` (via `.get` with default) and `aspects` (via `.get` with
default) and otherwise only tests the dict for truthiness, so the payload
is embedded as the two optional fields plus a flag recording whether any
other key is present (which is all dict truthiness depends on).
-/

namespace ReviewApp

/-- Element of the `aspects` list of a parsed payload: the schema fields
`feature`, `sentiment`, `quote` that `run_analysis` reads by direct
indexing. -/
structure AspectResult where
  feature : String
  sentiment : String
  quote : String
deriving Repr, DecidableEq

/-- Parsed JSON payload of one review analysis, as observed by the code:
`sentiment` and `aspects` are `none` when the key is absent (the code reads
them with `.get` and a default); `extraKeys` records whether the dict has
any further keys, which matters only for Python truthiness. -/
structure ReviewAnalysis where
  sentiment : Option String
  aspects : Option (List AspectResult)
  extraKeys : Bool
deriving Repr, DecidableEq

/-- Python truthiness of the parsed payload dict (`if analysis:` in
`run_analysis`): a dict is truthy iff it is non-empty. -/
def truthy (a : ReviewAnalysis) : Bool :=
  a.sentiment.isSome || a.aspects.isSome || a.extraKeys

/-- Value of `analysis.get ("sentiment", "neutral")` at line 141. -/
def resolvedSentiment (a : ReviewAnalysis) : String :=
  a.sentiment.getD "neutral"

/-- Value of `analysis.get ("aspects", [])` at line 142. -/
def aspectsOf (a : ReviewAnalysis) : List AspectResult :=
  a.aspects.getD []

/-- Keys of a list in first-occurrence order, as `collections.Counter`
orders its entries. -/
def firstOccurrences : List String → List String
  | [] => []
  | x :: xs => x :: (firstOccurrences xs).filter (fun y => y != x)

/-- Denotation of `collections.Counter(xs)` as an ordered association
list: keys in first-occurrence order, each with its total count. -/
def counter (xs : List String) : List (String × Nat) :=
  (firstOccurrences xs).map (fun k => (k, xs.count k))

/-- Sum of the multiplicities of a counter, i.e.
`sum(sentiment_counts.values())`. -/
def sumVals (l : List (String × Nat)) : Nat :=
  (l.map Prod.snd).sum

/-- Multiplicity recorded for a key in a counter (0 when the key is
absent), i.e. `sentiment_counts[s]`. -/
def lookupCount (l : List (String × Nat)) (s : String) : Nat :=
  match l.find? (fun p => p.1 == s) with
  | some p => p.2
  | none => 0

/-- Body of the `for` loop of `run_analysis` (lines 133-142) acting on the
accumulator `(all_results, all_sentiments, all_aspects)`: a review whose
analysis is `None` or a falsy (empty) dict is skipped; otherwise the pair
is appended to `all_results`, the resolved sentiment to `all_sentiments`,
and the aspect list is concatenated onto `all_aspects`. -/
def loopStep (acc : List (String × ReviewAnalysis) × List String × List AspectResult)
    (p : String × Option ReviewAnalysis) :
    List (String × ReviewAnalysis) × List String × List AspectResult :=
  match p.2 with
  | some a =>
      if truthy a then
        (acc.1 ++ [(p.1, a)], acc.2.1 ++ [resolvedSentiment a], acc.2.2 ++ aspectsOf a)
      else acc
  | none => acc

/-- The whole analysis loop of `run_analysis`: folds `loopStep` over the
per-review `(review_text, analysis)` outcomes starting from three empty
lists. -/
def aggregate (results : List (String × Option ReviewAnalysis)) :
    List (String × ReviewAnalysis) × List String × List AspectResult :=
  results.foldl loopStep ([], [], [])

/-- The sub-list of per-review outcomes that pass the `if analysis:` guard:
analysis present and truthy, paired with the review text, in order. -/
def truthyFilter (results : List (String × Option ReviewAnalysis)) :
    List (String × ReviewAnalysis) :=
  results.filterMap (fun p =>
    match p.2 with
    | some a => if truthy a then some (p.1, a) else none
    | none => none)

/-- Number of reviews whose analysis outcome passes the `if analysis:`
guard. -/
def countTruthy (results : List (String × Option ReviewAnalysis)) : Nat :=
  (truthyFilter results).length

/-- Whether the analysis of some review returned absent (`None`). -/
def anyFailed (results : List (String × Option ReviewAnalysis)) : Bool :=
  results.any (fun p => p.2.isNone)

/-- List comprehension at line 150:
`[a["feature"] for a in all_aspects if a["sentiment"] == "positive"]`. -/
def posAspectWords (all_aspects : List AspectResult) : List String :=
  (all_aspects.filter (fun a => a.sentiment == "positive")).map (fun a => a.feature)

/-- List comprehension at line 151, the negative counterpart. -/
def negAspectWords (all_aspects : List AspectResult) : List String :=
  (all_aspects.filter (fun a => a.sentiment == "negative")).map (fun a => a.feature)

/-- Stable insertion (earlier element first among equal counts) used to
model the count-descending order of `Counter.most_common`. -/
def insertDesc (x : String × Nat) : List (String × Nat) → List (String × Nat)
  | [] => [x]
  | y :: ys => if y.2 ≤ x.2 then x :: y :: ys else y :: insertDesc x ys

/-- Model of `Counter(words).most_common(n)`: entries sorted by count
descending, ties in first-occurrence order, truncated to `n`. -/
def most_common (words : List String) (n : Nat) : List (String × Nat) :=
  ((counter words).foldr insertDesc []).take n

/-- Method `analyze_single_review` (lines 173-212): the service/parse
outcome is the input; on success the parsed payload is returned, on any
exception `None` is returned and a line is printed to the console.  The
second component is the console output. -/
def analyze_single_review (svcOutcome : Except String ReviewAnalysis) :
    Option ReviewAnalysis × List String :=
  match svcOutcome with
  | .ok parsed => (some parsed, [])
  | .error e => (none, ["Error analyzing review: " ++ e])

/-- Per-review `(review_text, analysis)` outcomes of the
`for i, (review_text,) in enumerate(all_reviews_text)` loop starting at
index `i`, with `svc i` the service outcome for the `i`-th review. -/
def analysisResultsFrom (svc : Nat → Except String ReviewAnalysis) :
    Nat → List String → List (String × Option ReviewAnalysis)
  | _, [] => []
  | i, t :: ts => (t, (analyze_single_review (svc i)).1) :: analysisResultsFrom svc (i + 1) ts

/-- Per-review `(review_text, analysis)` outcomes of the loop of
`run_analysis`, with `svc i` the service outcome for the `i`-th review. -/
def analysisResults (rows : List String) (svc : Nat → Except String ReviewAnalysis) :
    List (String × Option ReviewAnalysis) :=
  analysisResultsFrom svc 0 rows

/-- Console lines printed during the loop of `run_analysis`. -/
def analysisLogs (rows : List String) (svc : Nat → Except String ReviewAnalysis) :
    List String :=
  ((List.range rows.length).map (fun i => (analyze_single_review (svc i)).2)).flatten

/-- Status-bar text of line 113. -/
def connectingMsg : String := "Connecting to database \x27feedback.db\x27..."

/-- Status-bar text of line 126. -/
def loadedMsg (n : Nat) : String := "Loaded " ++ toString n ++ " reviews."

/-- Status-bar text of line 134. -/
def analyzingMsg (i n : Nat) : String :=
  "Analyzing review " ++ toString i ++ " of " ++ toString n ++ "..."

/-- Status-bar text of line 144. -/
def processingMsg : String := "All reviews analyzed. Processing results..."

/-- Status-bar text of line 154. -/
def generatingMsg : String := "Generating final summary and recommendations..."

/-- Status-bar text of line 163. -/
def completeMsg (n : Nat) : String :=
  "Analysis complete! Processed " ++ toString n ++ " reviews."

/-- Status-bar text of line 122, shown when the query returns zero rows. -/
def noReviewsMsg : String := "Error: No reviews found in \x27feedback.db\x27."

/-- Status-bar text of line 166, the `sqlite3.OperationalError` handler. -/
def dbErrorMsg (e : String) : String :=
  "Database Error: " ++ e ++
    ". Check \x27feedback.db\x27, table \x27reviews\x27, or column \x27review_text\x27."

/-- Status-bar text of line 168, the generic `Exception` handler. -/
def unexpectedErrorMsg (e : String) : String :=
  "An unexpected error occurred: " ++ e

/-- Whether the characters of the first string are a prefix of those of
the second, as in the Python method `str.startswith`. -/
def charsStart : List Char → List Char → Bool
  | [], _ => true
  | _ :: _, [] => false
  | c :: cs, d :: ds => (c == d) && charsStart cs ds

/-- The Python method `str.startswith`, on the character lists of the strings. -/
def startsWith (s p : String) : Bool := charsStart p.data s.data

/-- Classification of a status-bar message as one of the error-worded
notices the pipeline emits (the zero-row notice and the two exception
handlers all word their message this way). -/
def errorStatus (s : String) : Bool :=
  startsWith s "Error" || startsWith s "Database Error" ||
    startsWith s "An unexpected error occurred"

/-- Method `create_summary_prompt` (lines 214-243): the f-string template
embedding the sentiment distribution and the ten most common positive and
negative aspect words (the embedded Python reprs are rendered
schematically via `toString`). -/
def create_summary_prompt (sentiment_counts : List (String × Nat))
    (pos_aspects neg_aspects : List String) : String :=
  "Analyze the following aggregated review data for the Apple Vision Pro.\n\n" ++
  "Overall Sentiment Distribution:\n" ++ toString sentiment_counts ++ "\n\n" ++
  "Frequently Mentioned Positive Aspects/Features:\n" ++
    toString (most_common pos_aspects 10) ++ "\n\n" ++
  "Frequently Mentioned Negative Aspects/Features:\n" ++
    toString (most_common neg_aspects 10) ++ "\n\n" ++
  "Based on this data, please provide a high-level summary.\n" ++
  "Your response MUST be formatted as follows:\n\n" ++
  "**Executive Summary:**\n[A one-paragraph summary of the overall customer sentiment.]\n\n" ++
  "**Key Strengths (What Customers Love):**\n[A bulleted list of the top 3-5 positive aspects and why.]\n\n" ++
  "**Key Weaknesses (What Customers Dislike):**\n[A bulleted list of the top 3-5 negative aspects and why.]\n\n" ++
  "**Actionable Recommendations:**\n[A bulleted list of specific, actionable recommendations for product improvement based *only* on the data provided.]"

/-- Method `get_final_summary` (lines 245-257): returns the service
response content on success and a diagnostic string embedding the error on
any exception; it never raises. -/
def get_final_summary (svcOutcome : Except String String) : String :=
  match svcOutcome with
  | .ok content => content
  | .error e => "Error generating final summary: " ++ e

/-- Exceptions that `run_analysis` can catch: `sqlite3.OperationalError`
(line 165) or any other `Exception` (line 167). -/
inductive PyErr where
  | operational (msg : String)
  | other (msg : String)
deriving Repr, DecidableEq

/-- Whether the database open-and-query step succeeded. -/
def queryOk : Except PyErr (List String) → Bool
  | .ok _ => true
  | .error _ => false

/-- The five-tuple handed to `populate_gui` (line 160). -/
structure GuiUpdate where
  summary : String
  sentiment_counts : List (String × Nat)
  pos_aspect_words : List String
  neg_aspect_words : List String
  all_results : List (String × ReviewAnalysis)
deriving Repr, DecidableEq

/-- Observable effects of one call of `run_analysis`: the status-bar
updates in order, the console output, the number of times a re-enable of
the Analyze button is scheduled, the number of external service calls
attempted, the prompt sent to the summarizer (when reached), the
`populate_gui` hand-off (when reached), and whether `conn.close()` (line
119) ran. -/
structure RunEffects where
  statuses : List String
  console : List String
  enableEvents : Nat
  serviceCalls : Nat
  summaryPrompt : Option String
  gui : Option GuiUpdate
  connectionReleased : Bool
deriving Repr, DecidableEq

/-- Method `run_analysis` (lines 106-171).  Inputs: the outcome of the
fixed `SELECT` (an `OperationalError`, another exception, or the list of
`review_text` rows), the per-review extraction-service outcome by index,
and the free-text service outcome by prompt.  The `finally` block always
schedules one button re-enable; the zero-row branch (lines 121-124)
additionally schedules its own before returning.  `conn.close()` runs only
when the query itself succeeded, since it is not in a `finally`. -/
def runAnalysis (db : Except PyErr (List String))
    (svc : Nat → Except String ReviewAnalysis)
    (ssvc : String → Except String String) : RunEffects :=
  match db with
  | .error (.operational e) =>
      { statuses := [connectingMsg, dbErrorMsg e], console := [], enableEvents := 1,
        serviceCalls := 0, summaryPrompt := none, gui := none,
        connectionReleased := false }
  | .error (.other e) =>
      { statuses := [connectingMsg, unexpectedErrorMsg e], console := [], enableEvents := 1,
        serviceCalls := 0, summaryPrompt := none, gui := none,
        connectionReleased := false }
  | .ok rows =>
      if rows.isEmpty then
        { statuses := [connectingMsg, noReviewsMsg], console := [], enableEvents := 2,
          serviceCalls := 0, summaryPrompt := none, gui := none,
          connectionReleased := true }
      else
        let n := rows.length
        let agg := aggregate (analysisResults rows svc)
        let sentiment_counts := counter agg.2.1
        let pos := posAspectWords agg.2.2
        let neg := negAspectWords agg.2.2
        let prompt := create_summary_prompt sentiment_counts pos neg
        { statuses := [connectingMsg, loadedMsg n] ++
            (List.range n).map (fun i => analyzingMsg (i + 1) n) ++
            [processingMsg, generatingMsg, completeMsg n],
          console := analysisLogs rows svc,
          enableEvents := 1,
          serviceCalls := n + 1,
          summaryPrompt := some prompt,
          gui := some { summary := get_final_summary (ssvc prompt),
                        sentiment_counts := sentiment_counts,
                        pos_aspect_words := pos,
                        neg_aspect_words := neg,
                        all_results := agg.1 },
          connectionReleased := true }

/-- Dialog boxes the standalone viewer can show (`messagebox.showerror` /
`messagebox.showinfo`). -/
inductive ViewerNotice where
  | errorBox (title : String) (message : String)
  | infoBox (title : String) (message : String)
deriving Repr, DecidableEq

/-- Observable effects of one call of the viewer function `load_feedback`. -/
structure ViewerEffects where
  notices : List ViewerNotice
  inserted : List (Int × String)
  connOpened : Bool
  connReleased : Bool
deriving Repr, DecidableEq

/-- Dialog text of `DatabaseTest.py` lines 30-31. -/
def fileNotFoundMsg : String :=
  "Database file not found: feedback.db\nPlease place it in the same folder as the script."

/-- Dialog text of `DatabaseTest.py` line 45. -/
def noDataMsg : String := "No data found in the table."

/-- Dialog text of `DatabaseTest.py` lines 52-53. -/
def viewerDbErrorMsg (e : String) : String :=
  "An error occurred: " ++ e ++ "\n\nCould not read table \x27reviews\x27."

/-- Function `load_feedback` of `DatabaseTest.py` (lines 20-57).  Inputs:
whether `os.path.exists` finds the database file, and the query outcome
(error message of a `sqlite3.Error`, or the `(id, review_text)` rows).
The `finally` block closes the connection whenever `conn` is in scope,
i.e. whenever the file-existence check passed and `connect` returned. -/
def load_feedback (fileExists : Bool) (db : Except String (List (Int × String))) :
    ViewerEffects :=
  if fileExists = false then
    { notices := [.errorBox "Error" fileNotFoundMsg], inserted := [],
      connOpened := false, connReleased := false }
  else
    match db with
    | .ok rows =>
        if rows.isEmpty then
          { notices := [.infoBox "Info" noDataMsg], inserted := [],
            connOpened := true, connReleased := true }
        else
          { notices := [], inserted := rows, connOpened := true, connReleased := true }
    | .error e =>
        { notices := [.errorBox "Database Error" (viewerDbErrorMsg e)], inserted := [],
          connOpened := true, connReleased := true }

/-- What `draw_word_cloud` (lines 309-330) renders into a tab: a plain
text placeholder label for an empty word list, or a word cloud generated
from the space-joined words. -/
inductive CloudRender where
  | placeholder (text : String)
  | cloud (text : String)
deriving Repr, DecidableEq

/-- The Python method `str.lower`, character by character. -/
def pyToLower (s : String) : String := ⟨s.data.map Char.toLower⟩

/-- Method `draw_word_cloud` (lines 309-330). -/
def draw_word_cloud (words_list : List String) (title : String) : CloudRender :=
  if words_list.isEmpty then
    .placeholder ("No " ++ pyToLower title ++ " found.")
  else
    .cloud (" ".intercalate words_list)

/-- One block of the raw-listing tab (`populate_gui` lines 277-284): the
review text, the displayed sentiment (`analysis.get ("sentiment", "N/A")`),
and the `(feature, sentiment)` line of each aspect. -/
structure RawEntry where
  review : String
  sentiment : String
  aspects : List (String × String)
deriving Repr, DecidableEq

/-- Contents of the raw-listing tab produced by `populate_gui` from
`all_results`, one entry per element in order. -/
def rawListing (all_results : List (String × ReviewAnalysis)) : List RawEntry :=
  all_results.map (fun p =>
    { review := p.1, sentiment := p.2.sentiment.getD "N/A",
      aspects := (aspectsOf p.2).map (fun a => (a.feature, a.sentiment)) })

/-- Number of transitions into the enabled state of the Analyze button,
folding a list of `config` actions (each entry the new enabled/disabled
value) from a starting state. -/
def countEnableTransitions : Bool → List Bool → Nat
  | _, [] => 0
  | prev, b :: rest => (if b && !prev then 1 else 0) + countEnableTransitions b rest

/-- Extraction-service behavior used to witness a failing analysis among
successes: the first review parses as a plain positive payload, every
later one raises. -/
def svcC1 : Nat → Except String ReviewAnalysis := fun i =>
  if i == 0 then .ok { sentiment := some "positive", aspects := some [], extraKeys := false }
  else .error "APIConnectionError"

theorem mem_firstOccurrences {a : String} : ∀ {xs : List String},
    a ∈ firstOccurrences xs ↔ a ∈ xs := by
  intro xs
  induction xs with
  | nil => simp [firstOccurrences]
  | cons x xs ih =>
    by_cases h : a = x
    · subst h; simp [firstOccurrences]
    · simp [firstOccurrences, List.mem_filter, h, ih]

theorem nodup_firstOccurrences : ∀ (xs : List String),
    (firstOccurrences xs).Nodup := by
  intro xs
  induction xs with
  | nil => simp [firstOccurrences]
  | cons x xs ih =>
    refine List.Nodup.cons ?_ (ih.filter _)
    intro hmem
    have := (List.mem_filter.mp hmem).2
    simp at this

theorem firstOccurrences_perm_dedup (xs : List String) :
    List.Perm (firstOccurrences xs) xs.dedup := by
  refine (List.perm_ext_iff_of_nodup (nodup_firstOccurrences xs) xs.nodup_dedup).mpr ?_
  intro a
  rw [mem_firstOccurrences, List.mem_dedup]

theorem sumVals_counter (xs : List String) :
    sumVals (counter xs) = xs.length := by
  have hperm : List.Perm ((firstOccurrences xs).map (fun k => xs.count k))
      (xs.dedup.map (fun k => xs.count k)) :=
    (firstOccurrences_perm_dedup xs).map _
  have hsum := hperm.sum_eq
  calc sumVals (counter xs)
      = ((firstOccurrences xs).map (fun k => xs.count k)).sum := by
        simp [sumVals, counter, Function.comp_def]
    _ = (xs.dedup.map (fun k => xs.count k)).sum := hsum
    _ = xs.length := List.sum_map_count_dedup_eq_length xs

theorem find?_map_keyed (ks : List String) (f : String → Nat) (s : String) :
    (ks.map (fun k => (k, f k))).find? (fun p => p.1 == s) =
      if s ∈ ks then some (s, f s) else none := by
  induction ks with
  | nil => simp
  | cons k ks ih =>
    by_cases h : k = s
    · subst h; simp [List.find?_cons]
    · have hbeq : (k == s) = false := beq_false_of_ne h
      simp only [List.map_cons, List.find?_cons, hbeq, ih, List.mem_cons]
      have : (s = k) ↔ False := ⟨fun hh => h hh.symm, False.elim⟩
      simp [this]

theorem lookupCount_counter (xs : List String) (s : String) :
    lookupCount (counter xs) s = xs.count s := by
  unfold lookupCount counter
  rw [find?_map_keyed]
  by_cases h : s ∈ firstOccurrences xs
  · simp [h]
  · have hx : s ∉ xs := fun hc => h (mem_firstOccurrences.mpr hc)
    simp [h, List.count_eq_zero.mpr hx]

theorem foldl_loopStep (l : List (String × Option ReviewAnalysis)) :
    ∀ acc, l.foldl loopStep acc =
      (acc.1 ++ (aggregate l).1, acc.2.1 ++ (aggregate l).2.1,
       acc.2.2 ++ (aggregate l).2.2) := by
  induction l with
  | nil => intro acc; simp [aggregate]
  | cons p l ih =>
    intro acc
    obtain ⟨t, oa⟩ := p
    show List.foldl loopStep (loopStep acc (t, oa)) l = _
    rw [ih]
    have hcons : aggregate ((t, oa) :: l) =
        ((loopStep ([], [], []) (t, oa)).1 ++ (aggregate l).1,
         (loopStep ([], [], []) (t, oa)).2.1 ++ (aggregate l).2.1,
         (loopStep ([], [], []) (t, oa)).2.2 ++ (aggregate l).2.2) := by
      show List.foldl loopStep (loopStep ([], [], []) (t, oa)) l = _
      rw [ih]
    rw [hcons]
    cases oa with
    | none => simp [loopStep]
    | some a =>
      by_cases h : truthy a
      · simp [loopStep, h]
      · simp [loopStep, h]

theorem aggregate_cons (p : String × Option ReviewAnalysis)
    (l : List (String × Option ReviewAnalysis)) :
    aggregate (p :: l) =
      ((loopStep ([], [], []) p).1 ++ (aggregate l).1,
       (loopStep ([], [], []) p).2.1 ++ (aggregate l).2.1,
       (loopStep ([], [], []) p).2.2 ++ (aggregate l).2.2) := by
  show List.foldl loopStep (loopStep ([], [], []) p) l = _
  rw [foldl_loopStep]

theorem aggregate_eq (results : List (String × Option ReviewAnalysis)) :
    aggregate results =
      (truthyFilter results,
       (truthyFilter results).map (fun p => resolvedSentiment p.2),
       (truthyFilter results).flatMap (fun p => aspectsOf p.2)) := by
  induction results with
  | nil => rfl
  | cons p l ih =>
    obtain ⟨t, oa⟩ := p
    rw [aggregate_cons, ih]
    cases oa with
    | none => simp [loopStep, truthyFilter]
    | some a =>
      by_cases h : truthy a
      · simp [loopStep, h, truthyFilter, List.filterMap_cons]
      · simp [loopStep, h, truthyFilter, List.filterMap_cons]

theorem length_truthyFilter_le (l : List (String × Option ReviewAnalysis)) :
    (truthyFilter l).length ≤ l.length :=
  List.length_filterMap_le _ _

theorem countTruthy_lt_of_anyFailed :
    ∀ (l : List (String × Option ReviewAnalysis)),
      anyFailed l = true → countTruthy l < l.length := by
  intro l
  induction l with
  | nil => intro h; simp [anyFailed] at h
  | cons p l ih =>
    intro h
    obtain ⟨t, oa⟩ := p
    cases oa with
    | none =>
      have heq : countTruthy ((t, none) :: l) = countTruthy l := by
        simp [countTruthy, truthyFilter, List.filterMap_cons]
      rw [heq, List.length_cons]
      exact Nat.lt_succ_of_le (length_truthyFilter_le l)
    | some a =>
      have h' : anyFailed l = true := by
        simpa [anyFailed, List.any_cons] using h
      have hlt := ih h'
      rw [List.length_cons]
      by_cases ht : truthy a
      · have heq : countTruthy ((t, some a) :: l) = countTruthy l + 1 := by
          simp [countTruthy, truthyFilter, List.filterMap_cons, ht]
        rw [heq]
        exact Nat.succ_lt_succ hlt
      · have heq : countTruthy ((t, some a) :: l) = countTruthy l := by
          simp [countTruthy, truthyFilter, List.filterMap_cons, ht]
        rw [heq]
        exact Nat.lt_succ_of_lt hlt

theorem analysisResultsFrom_map_fst (svc : Nat → Except String ReviewAnalysis) :
    ∀ (i : Nat) (rows : List String),
      (analysisResultsFrom svc i rows).map Prod.fst = rows := by
  intro i rows
  induction rows generalizing i with
  | nil => rfl
  | cons t ts ih => simp [analysisResultsFrom, ih]

theorem analysisResults_map_fst (rows : List String)
    (svc : Nat → Except String ReviewAnalysis) :
    (analysisResults rows svc).map Prod.fst = rows :=
  analysisResultsFrom_map_fst svc 0 rows

theorem analysisResultsFrom_length (svc : Nat → Except String ReviewAnalysis) :
    ∀ (i : Nat) (rows : List String),
      (analysisResultsFrom svc i rows).length = rows.length := by
  intro i rows
  induction rows generalizing i with
  | nil => rfl
  | cons t ts ih => simp [analysisResultsFrom, ih]

theorem count_map_eq_length_filter {α : Type} (f : α → String) (l : List α) (s : String) :
    (l.map f).count s = (l.filter (fun x => f x == s)).length := by
  rw [List.count_eq_countP, List.countP_map, List.countP_eq_length_filter]
  rfl

theorem truthyFilter_map_fst_sublist (l : List (String × Option ReviewAnalysis)) :
    List.Sublist ((truthyFilter l).map Prod.fst) (l.map Prod.fst) := by
  induction l with
  | nil => simp [truthyFilter]
  | cons p l ih =>
    obtain ⟨t, oa⟩ := p
    cases oa with
    | none =>
      simp only [truthyFilter, List.filterMap_cons] at *
      exact List.Sublist.cons t ih
    | some a =>
      by_cases h : truthy a
      · simp only [truthyFilter, List.filterMap_cons, h, if_pos, List.map_cons]
        exact List.Sublist.cons₂ t ih
      · simp only [truthyFilter, List.filterMap_cons, h, if_neg, Bool.false_eq_true,
          reduceIte]
        exact List.Sublist.cons t ih

theorem aggregate_of_all_none :
    ∀ (l : List (String × Option ReviewAnalysis)),
      (∀ p ∈ l, p.2 = none) → aggregate l = ([], [], []) := by
  intro l
  induction l with
  | nil => intro _; rfl
  | cons p l ih =>
    intro h
    have hp : p.2 = none := h p (List.mem_cons_self p l)
    obtain ⟨t, oa⟩ := p
    cases oa with
    | none =>
      rw [aggregate_cons, ih (fun q hq => h q (List.mem_cons_of_mem _ hq))]
      simp [loopStep]
    | some a => simp at hp

theorem analysisResultsFrom_all_none (f : Nat → String) :
    ∀ (i : Nat) (rows : List String),
      ∀ p ∈ analysisResultsFrom (fun j => .error (f j)) i rows, p.2 = none := by
  intro i rows
  induction rows generalizing i with
  | nil => intro p hp; simp [analysisResultsFrom] at hp
  | cons t ts ih =>
    intro p hp
    simp only [analysisResultsFrom, List.mem_cons] at hp
    rcases hp with h | h
    · rw [h]; rfl
    · exact ih (i + 1) p h

theorem countEnableTransitions_replicate_true :
    ∀ (k : Nat), 1 ≤ k →
      countEnableTransitions false (List.replicate k true) = 1 := by
  intro k hk
  cases k with
  | zero => omega
  | succ m =>
    rw [List.replicate_succ]
    show (if true && !false then 1 else 0) +
        countEnableTransitions true (List.replicate m true) = 1
    have hrest : ∀ (j : Nat), countEnableTransitions true (List.replicate j true) = 0 := by
      intro j
      induction j with
      | zero => rfl
      | succ n ihn =>
        rw [List.replicate_succ]
        show (if true && !true then 1 else 0) +
            countEnableTransitions true (List.replicate n true) = 0
        simpa using ihn
    simp [hrest m]

/-- Claim C5: for every run of the pipeline — whether it ends in a
database error, an unexpected mid-run error, an empty-result abort, or
completion — the Analyze button, disabled when the run starts, returns to
the enabled state exactly once: the `finally` block always schedules a
re-enable, and the extra re-enable scheduled on the empty-result path
finds the button already enabled, so it causes no second transition. -/
theorem C5_trigger_reenabled_once (db : Except PyErr (List String))
    (svc : Nat → Except String ReviewAnalysis) (ssvc : String → Except String String) :
    countEnableTransitions true
      (false :: List.replicate (runAnalysis db svc ssvc).enableEvents true) = 1 := by
  have h1 : 1 ≤ (runAnalysis db svc ssvc).enableEvents := by
    match db with
    | .error (.operational e) => exact Nat.le_refl 1
    | .error (.other e) => exact Nat.le_refl 1
    | .ok rows =>
      cases rows with
      | nil => exact Nat.le_of_lt (Nat.lt_succ_self 1)
      | cons r rs => exact Nat.le_refl 1
  show (if false && !true then 1 else 0) +
      countEnableTransitions false (List.replicate _ true) = 1
  simpa using countEnableTransitions_replicate_true _ h1

/-- Claim C6: `get_final_summary` never raises — on a successful service
call it returns the raw response content, and on any failure it returns
the diagnostic string embedding the error — so even with a failing
summarization service the pipeline still hands the presentation layer a
summary text (here: the diagnostic string). -/
theorem C6_summary_never_raises (s e r : String) (rs : List String)
    (svc : Nat → Except String ReviewAnalysis) :
    get_final_summary (.ok s) = s ∧
    get_final_summary (.error e) = "Error generating final summary: " ++ e ∧
    ∃ g, (runAnalysis (.ok (r :: rs)) svc (fun _ => .error e)).gui = some g ∧
      g.summary = "Error generating final summary: " ++ e := by
  exact ⟨rfl, rfl, ⟨_, rfl, rfl⟩⟩

/-- Claim C7: the per-review analyzer makes exactly one service attempt
per review (`serviceCalls` counts one per loaded review plus the final
summary call); on a service failure or unparsable payload it returns
absent and only logs the failure; and an absent result is a no-op for the
aggregation, so a failing review never aborts the rest of the batch — the
run still reaches the `populate_gui` hand-off. -/
theorem C7_item_failure_contained (e t r : String)
    (xs ys : List (String × Option ReviewAnalysis)) (rs : List String)
    (svc : Nat → Except String ReviewAnalysis) (ssvc : String → Except String String) :
    (analyze_single_review (.error e)).1 = none ∧
    (analyze_single_review (.error e)).2 = ["Error analyzing review: " ++ e] ∧
    aggregate (xs ++ (t, none) :: ys) = aggregate (xs ++ ys) ∧
    (runAnalysis (.ok (r :: rs)) svc ssvc).serviceCalls = (r :: rs).length + 1 ∧
    ∃ g, (runAnalysis (.ok (r :: rs)) svc ssvc).gui = some g := by
  refine ⟨rfl, rfl, ?_, rfl, ⟨_, rfl⟩⟩
  unfold aggregate
  rw [List.foldl_append, List.foldl_append]
  rfl

/-- Claim C10: when the analysis of every review returns absent, the pipeline
does not abort: the aggregate statistics are all empty, the summarizer is
still invoked on the prompt built from the empty distribution, the
presentation hand-off still happens, and each empty aspect-word list is
rendered as the textual placeholder instead of a word cloud. -/
theorem C10_zero_successes_graceful (r : String) (rs : List String) (f : Nat → String)
    (ssvc : String → Except String String) :
    ∃ g, (runAnalysis (.ok (r :: rs)) (fun i => .error (f i)) ssvc).gui = some g ∧
      g.sentiment_counts = [] ∧ g.pos_aspect_words = [] ∧ g.neg_aspect_words = [] ∧
      g.all_results = [] ∧
      (runAnalysis (.ok (r :: rs)) (fun i => .error (f i)) ssvc).summaryPrompt =
        some (create_summary_prompt [] [] []) ∧
      g.summary = get_final_summary (ssvc (create_summary_prompt [] [] [])) ∧
      draw_word_cloud g.pos_aspect_words "Positive Aspects" =
        .placeholder "No positive aspects found." ∧
      draw_word_cloud g.neg_aspect_words "Negative Aspects" =
        .placeholder "No negative aspects found." := by
  have hagg : aggregate (analysisResults (r :: rs) (fun i => .error (f i))) = ([], [], []) :=
    aggregate_of_all_none _ (analysisResultsFrom_all_none f 0 (r :: rs))
  refine ⟨_, rfl, ?_, ?_, ?_, ?_, ?_, ?_, ?_, ?_⟩
  · show counter (aggregate (analysisResults (r :: rs) (fun i => .error (f i)))).2.1 = []
    rw [hagg]
    rfl
  · show posAspectWords (aggregate (analysisResults (r :: rs) (fun i => .error (f i)))).2.2 = []
    rw [hagg]
    rfl
  · show negAspectWords (aggregate (analysisResults (r :: rs) (fun i => .error (f i)))).2.2 = []
    rw [hagg]
    rfl
  · show (aggregate (analysisResults (r :: rs) (fun i => .error (f i)))).1 = []
    rw [hagg]
  · show some (create_summary_prompt
        (counter (aggregate (analysisResults (r :: rs) (fun i => .error (f i)))).2.1)
        (posAspectWords (aggregate (analysisResults (r :: rs) (fun i => .error (f i)))).2.2)
        (negAspectWords (aggregate (analysisResults (r :: rs) (fun i => .error (f i)))).2.2)) =
      some (create_summary_prompt [] [] [])
    rw [hagg]
    rfl
  · show get_final_summary (ssvc (create_summary_prompt
        (counter (aggregate (analysisResults (r :: rs) (fun i => .error (f i)))).2.1)
        (posAspectWords (aggregate (analysisResults (r :: rs) (fun i => .error (f i)))).2.2)
        (negAspectWords (aggregate (analysisResults (r :: rs) (fun i => .error (f i)))).2.2))) =
      get_final_summary (ssvc (create_summary_prompt [] [] []))
    rw [hagg]
    rfl
  · show draw_word_cloud
        (posAspectWords (aggregate (analysisResults (r :: rs) (fun i => .error (f i)))).2.2)
        "Positive Aspects" = .placeholder "No positive aspects found."
    rw [hagg]
    rfl
  · show draw_word_cloud
        (negAspectWords (aggregate (analysisResults (r :: rs) (fun i => .error (f i)))).2.2)
        "Negative Aspects" = .placeholder "No negative aspects found."
    rw [hagg]
    rfl

/-- Claim C1 counterexample: the claim as stated fails.  A review whose
analysis succeeds (returns a non-absent payload) but whose parsed payload
is the empty JSON object is skipped by the `if analysis:` truthiness guard,
so it contributes nothing to the sentiment counts: for this one-review
result list the counts total 0 while the number of reviews whose analysis
succeeded is 1. -/
theorem C1_counterexample :
    sumVals (counter (aggregate [("Solid headset.",
        some { sentiment := none, aspects := none, extraKeys := false })]).2.1) = 0 ∧
    List.countP (fun p => p.2.isSome)
      [(("Solid headset." : String),
        (some { sentiment := none, aspects := none, extraKeys := false } :
          Option ReviewAnalysis))] = 1 :=
  ⟨rfl, rfl⟩

/-- Claim C1 amended: for every run over a non-empty review set, the total
of the aggregated sentiment counts equals the number of reviews whose
analysis returned a non-absent and non-empty (truthy) payload — a review
whose analysis returns absent, or whose successful payload is the empty
object, contributes zero to the counts — so the total is at most the
number of reviews loaded, and strictly less whenever some analysis returns
absent. -/
theorem C1_counts_total (r : String) (rs : List String)
    (svc : Nat → Except String ReviewAnalysis) (ssvc : String → Except String String) :
    (∃ g, (runAnalysis (.ok (r :: rs)) svc ssvc).gui = some g ∧
        sumVals g.sentiment_counts = countTruthy (analysisResults (r :: rs) svc)) ∧
    countTruthy (analysisResults (r :: rs) svc) ≤ (r :: rs).length ∧
    (anyFailed (analysisResults (r :: rs) svc) = true →
      countTruthy (analysisResults (r :: rs) svc) < (r :: rs).length) := by
  refine ⟨⟨_, rfl, ?_⟩, ?_, ?_⟩
  · show sumVals (counter (aggregate (analysisResults (r :: rs) svc)).2.1) =
      countTruthy (analysisResults (r :: rs) svc)
    rw [sumVals_counter, aggregate_eq]
    simp [countTruthy]
  · calc countTruthy (analysisResults (r :: rs) svc)
        ≤ (analysisResults (r :: rs) svc).length := length_truthyFilter_le _
      _ = (r :: rs).length := analysisResultsFrom_length svc 0 (r :: rs)
  · intro h
    calc countTruthy (analysisResults (r :: rs) svc)
        < (analysisResults (r :: rs) svc).length := countTruthy_lt_of_anyFailed _ h
      _ = (r :: rs).length := analysisResultsFrom_length svc 0 (r :: rs)

/-- Witness for `C1_counts_total` at a concrete input: two reviews, the
first analyzing successfully as positive, the second failing, so the
truthy count 1 is strictly below the 2 reviews loaded. -/
theorem C1_counts_total_witness :
    countTruthy (analysisResults ["Great display.", "Terrible comfort."] svcC1) < 2 :=
  (C1_counts_total "Great display." ["Terrible comfort."] svcC1
    (fun _ => .ok "summary")).2.2 (by decide)

/-- Claim C2 counterexample: the claim as stated fails.  A successfully
analyzed review whose payload is the empty object has a missing sentiment
field, so the claim requires it to be counted under "neutral"; the
truthiness guard `if analysis:` in the code instead drops it entirely, leaving the
sentiment counts empty (the "neutral" count is 0, not 1). -/
theorem C2_counterexample :
    (runAnalysis (.ok ["It exists."])
        (fun _ => .ok { sentiment := none, aspects := none, extraKeys := false })
        (fun _ => .ok "SUMMARY")).gui =
      some { summary := "SUMMARY", sentiment_counts := [], pos_aspect_words := [],
             neg_aspect_words := [], all_results := [] } ∧
    lookupCount [] "neutral" = 0 :=
  ⟨rfl, rfl⟩

/-- Claim C2 amended: the aggregation counts each successfully analyzed
review whose payload is non-empty under its top-level sentiment,
substituting "neutral" when the sentiment field is missing (a successful
but completely empty payload is skipped like a failed analysis); it
collects the verbatim `feature` string of every aspect whose own sentiment
is "positive" into the positive word list and of every "negative" one into
the negative word list, in order, dropping aspects of any other sentiment
(in particular "neutral") from both lists, with no case or synonym
normalization of feature strings. -/
theorem C2_aggregation_rules (results : List (String × Option ReviewAnalysis)) (s : String) :
    lookupCount (counter (aggregate results).2.1) s =
      ((truthyFilter results).filter (fun p => resolvedSentiment p.2 == s)).length ∧
    (aggregate results).2.2 = (truthyFilter results).flatMap (fun p => aspectsOf p.2) ∧
    posAspectWords (aggregate results).2.2 =
      (((truthyFilter results).flatMap (fun p => aspectsOf p.2)).filter
        (fun a => a.sentiment == "positive")).map (fun a => a.feature) ∧
    negAspectWords (aggregate results).2.2 =
      (((truthyFilter results).flatMap (fun p => aspectsOf p.2)).filter
        (fun a => a.sentiment == "negative")).map (fun a => a.feature) := by
  have hagg := aggregate_eq results
  refine ⟨?_, ?_, ?_, ?_⟩
  · simp only [hagg]
    rw [lookupCount_counter]
    exact count_map_eq_length_filter _ _ s
  · simp only [hagg]
  · simp only [hagg, posAspectWords]
  · simp only [hagg, negAspectWords]

/-- Claim C3 counterexample: the claim as stated fails.  In the pipeline,
`conn.close()` (line 119) is not in a `finally` block, so when the query
raises — here an `OperationalError` — the handler takes over and the
connection is never released on that path. -/
theorem C3_counterexample :
    (runAnalysis (.error (.operational "attempt to write a readonly database"))
        (fun _ => .error "unused3") (fun _ => .error "unused3")).connectionReleased = false :=
  rfl

/-- Claim C3 amended: the standalone viewer function `load_feedback`
releases the store connection on every path on which it opened one (its
`finally` block closes `conn` whenever it is in scope), but the pipeline
method `run_analysis` releases the connection exactly when the
open-and-query step succeeds —
on a query failure the connection is not released. -/
theorem C3_connection_release (db : Except PyErr (List String))
    (svc : Nat → Except String ReviewAnalysis) (ssvc : String → Except String String)
    (fileExists : Bool) (vdb : Except String (List (Int × String))) :
    (load_feedback fileExists vdb).connReleased = (load_feedback fileExists vdb).connOpened ∧
    (runAnalysis db svc ssvc).connectionReleased = queryOk db := by
  constructor
  · cases fileExists with
    | false => rfl
    | true =>
      cases vdb with
      | ok rows =>
        cases rows with
        | nil => rfl
        | cons a as => rfl
      | error e => rfl
  · match db with
    | .error (.operational e) => rfl
    | .error (.other e) => rfl
    | .ok rows =>
      cases rows with
      | nil => rfl
      | cons r rs => rfl

/-- Claim C4 counterexample: the claim as stated fails.  When the store is
reachable but the query returns zero rows, the notice of the pipeline is
the status message of line 122, which is worded as an error (it begins with
"Error:"), not as an informational notice. -/
theorem C4_counterexample :
    (runAnalysis (.ok []) (fun _ => .error "unused4") (fun _ => .error "unused4")).statuses =
      [connectingMsg, noReviewsMsg] ∧
    errorStatus noReviewsMsg = true :=
  ⟨rfl, by decide⟩

/-- Claim C4 amended: on a zero-row result the pipeline aborts gracefully
before any external-service call, hands nothing to the presentation layer,
re-enables the trigger (twice, in fact), emits no exception-handler
diagnostic — its statuses are exactly the connecting message and the
zero-row notice — but that notice is worded as an error rather than
informational; the standalone viewer in the same situation shows a true
informational dialog and releases its connection. -/
theorem C4_empty_result (svc : Nat → Except String ReviewAnalysis)
    (ssvc : String → Except String String) :
    (runAnalysis (.ok []) svc ssvc).statuses = [connectingMsg, noReviewsMsg] ∧
    errorStatus noReviewsMsg = true ∧
    (runAnalysis (.ok []) svc ssvc).serviceCalls = 0 ∧
    (runAnalysis (.ok []) svc ssvc).gui = none ∧
    (runAnalysis (.ok []) svc ssvc).enableEvents = 2 ∧
    (runAnalysis (.ok []) svc ssvc).connectionReleased = true ∧
    load_feedback true (.ok []) =
      { notices := [.infoBox "Info" noDataMsg], inserted := [],
        connOpened := true, connReleased := true } :=
  ⟨rfl, by decide, rfl, rfl, rfl, rfl, rfl⟩

/-- Claim C8 counterexample: the claim as stated fails.  The raw listing
is built from `all_results`, which holds only the reviews that passed the
`if analysis:` guard: with one loaded review whose analysis fails, the
listing is empty rather than enumerating the loaded review. -/
theorem C8_counterexample :
    (runAnalysis (.ok ["The strap broke."]) (fun _ => .error "APITimeoutError")
        (fun _ => .ok "S8")).gui =
      some { summary := "S8", sentiment_counts := [], pos_aspect_words := [],
             neg_aspect_words := [], all_results := [] } ∧
    rawListing [] = [] ∧
    (["The strap broke."] : List String).length = 1 :=
  ⟨rfl, rfl, rfl⟩

/-- Claim C8 amended: after a completed run the raw listing enumerates
exactly the successfully analyzed reviews (those whose analysis returned a
truthy payload) — reviews whose analysis failed are omitted — each entry
showing the review text, its displayed sentiment ("N/A" when the field is
missing), and its aspect `(feature, sentiment)` breakdown, in the same
order the rows were returned by the data-access step (the listed review
texts form an order-preserving sub-list of the loaded rows). -/
theorem C8_raw_listing (r : String) (rs : List String)
    (svc : Nat → Except String ReviewAnalysis) (ssvc : String → Except String String) :
    ∃ g, (runAnalysis (.ok (r :: rs)) svc ssvc).gui = some g ∧
      g.all_results = truthyFilter (analysisResults (r :: rs) svc) ∧
      rawListing g.all_results = g.all_results.map (fun p =>
        { review := p.1, sentiment := p.2.sentiment.getD "N/A",
          aspects := (aspectsOf p.2).map (fun a => (a.feature, a.sentiment)) }) ∧
      List.Sublist (g.all_results.map Prod.fst) (r :: rs) := by
  refine ⟨_, rfl, ?_, rfl, ?_⟩
  · show (aggregate (analysisResults (r :: rs) svc)).1 =
      truthyFilter (analysisResults (r :: rs) svc)
    simp only [aggregate_eq]
  · show List.Sublist
      (((aggregate (analysisResults (r :: rs) svc)).1).map Prod.fst) (r :: rs)
    simp only [aggregate_eq]
    have hsub := truthyFilter_map_fst_sublist (analysisResults (r :: rs) svc)
    rwa [analysisResults_map_fst (r :: rs) svc] at hsub

/-- Claim C9 counterexample: the claim as stated fails.  With the store
file absent, `sqlite3.connect` creates an empty database and the fixed
query raises `no such table: reviews`; the two pipeline status messages
are the connecting message and the generic database-error notice — neither
is (or begins with) the claimed notice "Database file not found", which
only the standalone viewer produces. -/
theorem C9_counterexample :
    (runAnalysis (.error (.operational "no such table: reviews"))
        (fun _ => .error "unused9") (fun _ => .error "unused9")).statuses =
      [connectingMsg, dbErrorMsg "no such table: reviews"] ∧
    startsWith connectingMsg "Database file not found" = false ∧
    startsWith (dbErrorMsg "no such table: reviews") "Database file not found" = false :=
  ⟨rfl, by decide, by decide⟩

/-- Claim C9 amended: when the store file is absent the pipeline query
fails (`no such table: reviews`, since `sqlite3.connect` silently creates
an empty database), so the run aborts before any external-service call,
hands nothing to the presentation layer, re-enables the trigger once, and
notifies via the generic "Database Error: ..." status; the notice
"Database file not found" is produced by the standalone viewer, which
checks for the file, shows that error dialog, inserts nothing and never
opens a connection. -/
theorem C9_store_absent (svc : Nat → Except String ReviewAnalysis)
    (ssvc : String → Except String String) (vdb : Except String (List (Int × String))) :
    (runAnalysis (.error (.operational "no such table: reviews")) svc ssvc).serviceCalls = 0 ∧
    (runAnalysis (.error (.operational "no such table: reviews")) svc ssvc).gui = none ∧
    (runAnalysis (.error (.operational "no such table: reviews")) svc ssvc).enableEvents = 1 ∧
    (runAnalysis (.error (.operational "no such table: reviews")) svc ssvc).statuses =
      [connectingMsg, dbErrorMsg "no such table: reviews"] ∧
    (load_feedback false vdb).notices = [.errorBox "Error" fileNotFoundMsg] ∧
    (load_feedback false vdb).inserted = [] ∧
    (load_feedback false vdb).connOpened = false :=
  ⟨rfl, rfl, rfl, rfl, rfl, rfl, rfl⟩

end ReviewApp
